import Mathlib

/-!
Shallow embedding of the VSOpenGLTemplate "Hello, cube!" application
(src/BaseApplication.h, src/Cube.h, src/HelloCube.cpp, src/ShaderHelpers.h).

External GL / GLFW calls are modelled as an explicit trace of `GLEvent`
values emitted by each operation; the outcome of the external shader
build (`programCreateFromFiles` plus the `glGetUniformLocation` calls)
is passed in as a `ShaderBuild` parameter.  Doubles are modelled as
rationals.  Every angle the program ever passes to glm is a rational
multiple of `glm::half_pi`, so angles are represented by their
coefficient of pi/2.
-/

namespace VSOpenGL

/-- Constant from GLFW: GLFW_KEY_LAST. -/
def GLFW_KEY_LAST : Int := 348

/-- Constant from GLFW: GLFW_KEY_ESCAPE. -/
def GLFW_KEY_ESCAPE : Nat := 256

/-- Constant from GLFW: GLFW_RELEASE. -/
def GLFW_RELEASE : Nat := 0

/-- Constant from GLFW: GLFW_PRESS. -/
def GLFW_PRESS : Nat := 1

/-- Constant from GLFW: GLFW_REPEAT. -/
def GLFW_REPEAT : Nat := 2

/-- Symbolic glm matrix expressions, as built by the code.  All angle
arguments are given as the coefficient of pi/2 (the code only ever uses
`glm::half_pi * x`). -/
inductive GlmMat where
  | identity : GlmMat
  | perspective (fovyHalfPi aspect near far : ℚ) : GlmMat
  | translate (x y z : ℚ) : GlmMat
  | rotate (m : GlmMat) (angleHalfPi : ℚ) (ax ay az : ℚ) : GlmMat
  | mul (a b : GlmMat) : GlmMat
deriving DecidableEq

/-- Observable external effects of the application (GL / GLFW calls and
log lines that the claims mention). -/
inductive GLEvent where
  | deleteProgram (p : Nat)
  | deleteVertexArrays (v : Nat)
  | deleteBuffers (b0 b1 : Nat)
  | destroyWindow
  | glfwTerminate
  | glViewport (w h : Int)
  | glClear
  | useProgram (p : Nat)
  | uniformMatrix4fv (loc : Int) (m : GlmMat)
  | uniform1f (loc : Int) (v : ℚ)
  | bindVertexArray (v : Nat)
  | drawElements (count : Nat)
  | swapBuffers
  | setWindowShouldClose
  | setWindowTitle (frametime fps : ℚ)
  | logUniformLocation (uniformName : String) (loc : Int)
  | warnInvalidKey (key : Int)
deriving DecidableEq

/-- Cube: state required for the cube (src/Cube.h).  `model` is the local
model transformation. -/
structure Cube where
  vbo0 : Nat
  vbo1 : Nat
  vao : Nat
  model : GlmMat
deriving DecidableEq

/-- BaseApplication: all application state (src/BaseApplication.h).
`winValid` models whether the `win` pointer is non-NULL.  The key arrays
are modelled as functions from key code to Bool. -/
structure BaseApplication where
  winValid : Bool
  width : Int
  height : Int
  flags : Nat
  timeCur : ℚ
  timeDelta : ℚ
  avg_frametime : ℚ
  avg_fps : ℚ
  pressedKeys : Nat → Bool
  releasedKeys : Nat → Bool
  cube : Cube
  program : Nat
  locProjection : Int
  locModelView : Int
  locTime : Int
  locCameraPos : Int
  projection : GlmMat
  view : GlmMat

/-- Outcome of the external shader build: the program name returned by
`programCreateFromFiles` (0 on failure) and the four uniform locations
`glGetUniformLocation` would report for it. -/
structure ShaderBuild where
  program : Nat
  locProjection : Int
  locModelView : Int
  locTime : Int
  locCameraPos : Int
deriving DecidableEq

/-- destroyShaders (src/BaseApplication.h, lines 145-152): delete the
program if one is held, and zero the handle. -/
def destroyShaders (app : BaseApplication) : BaseApplication × List GLEvent :=
  if app.program ≠ 0 then
    ({ app with program := 0 }, [GLEvent.deleteProgram app.program])
  else (app, [])

/-- initShaders (src/BaseApplication.h, lines 46-63): destroy the old
program FIRST, then build the new one; on failure `program` is left 0 and
the function returns false; on success the four uniform locations are
resolved and logged. -/
def initShaders (app : BaseApplication) (b : ShaderBuild) :
    BaseApplication × List GLEvent × Bool :=
  let d := destroyShaders app
  let app2 : BaseApplication := { d.1 with program := b.program }
  if app2.program = 0 then (app2, d.2, false)
  else
    ({ app2 with
        locProjection := b.locProjection
        locModelView := b.locModelView
        locTime := b.locTime
        locCameraPos := b.locCameraPos },
      d.2 ++
        [GLEvent.logUniformLocation "projection" b.locProjection,
         GLEvent.logUniformLocation "modelView" b.locModelView,
         GLEvent.logUniformLocation "time" b.locTime,
         GLEvent.logUniformLocation "locCameraPos" b.locCameraPos],
      true)

/-- Cube.destroy (src/Cube.h, lines 64-78): unbind the VAO, then delete
VAO and VBOs only if still held, zeroing handles afterwards. -/
def Cube.destroy (c : Cube) : Cube × List GLEvent :=
  let ev0 := [GLEvent.bindVertexArray 0]
  let r1 : Cube × List GLEvent :=
    if c.vao ≠ 0 then ({ c with vao := 0 }, [GLEvent.deleteVertexArrays c.vao])
    else (c, [])
  let r2 : Cube × List GLEvent :=
    if r1.1.vbo0 ≠ 0 ∨ r1.1.vbo1 ≠ 0 then
      ({ r1.1 with vbo0 := 0, vbo1 := 0 },
        [GLEvent.deleteBuffers r1.1.vbo0 r1.1.vbo1])
    else (r1.1, [])
  (r2.1, ev0 ++ r1.2 ++ r2.2)

/-- Cube.initBasic (src/Cube.h, lines 79-108), state part: the GL names
produced by glGenVertexArrays / glGenBuffers are parameters; the model
transform is reset to the identity. -/
def Cube.initBasic (c : Cube) (vao b0 b1 : Nat) : Cube :=
  { c with vao := vao, vbo0 := b0, vbo1 := b1, model := GlmMat.identity }

/-- BaseApplication.destroy (src/BaseApplication.h, lines 155-164): if
`flags` is set, destroy the cube, the shaders, the window (if non-NULL)
and terminate GLFW.  Note the code does NOT clear `flags` or `win`. -/
def BaseApplication.destroy (app : BaseApplication) :
    BaseApplication × List GLEvent :=
  if app.flags ≠ 0 then
    let rc := app.cube.destroy
    let app1 : BaseApplication := { app with cube := rc.1 }
    let rs := destroyShaders app1
    let ev3 := if rs.1.winValid then [GLEvent.destroyWindow] else []
    (rs.1, rc.2 ++ rs.2 ++ ev3 ++ [GLEvent.glfwTerminate])
  else (app, [])

/-- callback_Resize (src/HelloCube.cpp, lines 22-30): store the new
framebuffer size. -/
def callback_Resize (app : BaseApplication) (w h : Int) : BaseApplication :=
  { app with width := w, height := h }

/-- Pointwise update of a key array, modelling `arr[k] = b`. -/
def setKey (f : Nat → Bool) (k : Nat) (b : Bool) : Nat → Bool :=
  fun i => if i = k then b else f i

/-- The static shader table of callback_Keyboard
(src/HelloCube.cpp, lines 38-50). -/
def shadersTable : List (String × String) :=
  [("shaders/minimal.vs.glsl", "shaders/minimal.fs.glsl"),
   ("shaders/color.vs.glsl", "shaders/color.fs.glsl"),
   ("shaders/cut.vs.glsl", "shaders/cut.fs.glsl"),
   ("shaders/wobble.vs.glsl", "shaders/color.fs.glsl"),
   ("shaders/experimental.vs.glsl", "shaders/experimental.fs.glsl"),
   ("shaders/yourshader.vs.glsl", "shaders/yourshader.fs.glsl"),
   ("shaders/yourshader.vs.glsl", "shaders/yourshader.fs.glsl"),
   ("shaders/yourshader.vs.glsl", "shaders/yourshader.fs.glsl"),
   ("shaders/yourshader.vs.glsl", "shaders/yourshader.fs.glsl"),
   ("shaders/yourshader.vs.glsl", "shaders/yourshader.fs.glsl")]

/-- The action a key press can dispatch inside callback_Keyboard. -/
inductive KeyAction where
  | swapShader (vs fs : String)
  | quit
deriving DecidableEq

/-- callback_Keyboard (src/HelloCube.cpp, lines 34-76).  Besides the new
state and the emitted events, the result records which mapped action (if
any) was dispatched by this call, for observability of edge triggering.
The outcome of the shader build a digit key requests is the `b`
parameter; the code ignores the Boolean initShaders returns. -/
def callback_Keyboard (app : BaseApplication) (key : Int) (action : Nat)
    (b : ShaderBuild) : BaseApplication × List GLEvent × Option KeyAction :=
  if key < 0 ∨ key > GLFW_KEY_LAST then
    (app, [GLEvent.warnInvalidKey key], none)
  else
    let k := key.toNat
    if action = GLFW_RELEASE then
      ({ app with pressedKeys := setKey app.pressedKeys k false }, [], none)
    else
      let r : BaseApplication × List GLEvent × Option KeyAction :=
        if app.pressedKeys k then (app, [], none)
        else
          if 48 ≤ k ∧ k ≤ 57 then
            let pair := shadersTable.getD (k - 48) ("", "")
            let ri := initShaders app b
            (ri.1, ri.2.1, some (KeyAction.swapShader pair.1 pair.2))
          else if k = GLFW_KEY_ESCAPE then
            (app, [GLEvent.setWindowShouldClose], some KeyAction.quit)
          else (app, [], none)
      ({ r.1 with pressedKeys := setKey r.1.pressedKeys k true }, r.2.1, r.2.2)

/-- The mapped action of a (in-range) key code, as dispatched on a press
edge by callback_Keyboard. -/
def keyMapped (k : Nat) : Option KeyAction :=
  if 48 ≤ k ∧ k ≤ 57 then
    some (KeyAction.swapShader (shadersTable.getD (k - 48) ("", "")).1
      (shadersTable.getD (k - 48) ("", "")).2)
  else if k = GLFW_KEY_ESCAPE then some KeyAction.quit
  else none

/-- displayFunc (src/HelloCube.cpp, lines 84-128): recompute projection
and view, rotate the model by `half_pi * timeDelta` about (0.8,0.6,0.1),
then issue the GL calls of the frame unconditionally. -/
def displayFunc (app : BaseApplication) : BaseApplication × List GLEvent :=
  let projection :=
    GlmMat.perspective 1 ((app.width : ℚ) / (app.height : ℚ)) (1/10) 10
  let view := GlmMat.translate 0 0 (-4)
  let model :=
    GlmMat.rotate app.cube.model app.timeDelta (4/5) (3/5) (1/10)
  let modelView := GlmMat.mul view model
  ({ app with
      projection := projection
      view := view
      cube := { app.cube with model := model } },
    [GLEvent.glViewport app.width app.height,
     GLEvent.glClear,
     GLEvent.useProgram app.program,
     GLEvent.uniformMatrix4fv app.locProjection projection,
     GLEvent.uniformMatrix4fv app.locModelView modelView,
     GLEvent.uniform1f app.locTime app.timeCur,
     GLEvent.bindVertexArray app.cube.vao,
     GLEvent.drawElements 36,
     GLEvent.bindVertexArray 0,
     GLEvent.useProgram 0,
     GLEvent.swapBuffers])

/-- One keyboard event delivered during glfwPollEvents, together with
the build outcome a triggered swap would see. -/
structure KeyEvent where
  key : Int
  action : Nat
  build : ShaderBuild

/-- glfwPollEvents, modelled as delivering a list of key events to
callback_Keyboard. -/
def pollEvents : BaseApplication → List KeyEvent → BaseApplication × List GLEvent
  | app, [] => (app, [])
  | app, e :: rest =>
    let r := callback_Keyboard app e.key e.action e.build
    let r2 := pollEvents r.1 rest
    (r2.1, r.2.1 ++ r2.2)

/-- The local state of mainLoop (src/HelloCube.cpp, lines 137-178). -/
structure LoopState where
  app : BaseApplication
  frame : Nat
  frames_total : Nat
  start_time : ℚ
  last_time : ℚ

/-- The FPS-statistics refresh of mainLoop (src/HelloCube.cpp, lines
150-163): if at least 1.0 second elapsed since `last_time`, recompute
the averages, accumulate and reset the frame counter, move the baseline
and update the window title. -/
def updateStats (s : LoopState) : LoopState × List GLEvent :=
  let elapsed := s.app.timeCur - s.last_time
  if elapsed ≥ 1 then
    let aft := 1000 * elapsed / (s.frame : ℚ)
    let afps := (s.frame : ℚ) / elapsed
    ({ s with
        app := { s.app with avg_frametime := aft, avg_fps := afps }
        last_time := s.app.timeCur
        frames_total := s.frames_total + s.frame
        frame := 0 },
      [GLEvent.setWindowTitle aft afps])
  else (s, [])

/-- Input of one mainLoop iteration: the value glfwGetTime returns and
the key events glfwPollEvents delivers at the end of the iteration. -/
structure FrameInput where
  now : ℚ
  keyEvents : List KeyEvent

/-- One iteration of the while loop of mainLoop (src/HelloCube.cpp,
lines 144-173): sample time, refresh statistics, draw, count the frame,
poll events. -/
def loopIter (s : LoopState) (fi : FrameInput) : LoopState × List GLEvent :=
  let s1 : LoopState :=
    { s with app := { s.app with
        timeDelta := fi.now - s.app.timeCur, timeCur := fi.now } }
  let u := updateStats s1
  let d := displayFunc u.1.app
  let p := pollEvents d.1 fi.keyEvents
  ({ u.1 with app := p.1, frame := u.1.frame + 1 }, u.2 ++ d.2 ++ p.2)

/-- The while loop of mainLoop, run over a list of iteration inputs. -/
def runLoop : LoopState → List FrameInput → LoopState × List GLEvent
  | s, [] => (s, [])
  | s, fi :: rest =>
    let r := loopIter s fi
    let r2 := runLoop r.1 rest
    (r2.1, r.2 ++ r2.2)

/-- The state mainLoop starts from: frame = frames_total = 0 and
start_time = last_time = the initial glfwGetTime sample. -/
def initLoopState (app : BaseApplication) (t0 : ℚ) : LoopState :=
  { app := app, frame := 0, frames_total := 0, start_time := t0, last_time := t0 }

/-- The exit report of mainLoop (src/HelloCube.cpp, lines 174-177). -/
structure RunReport where
  finalState : LoopState
  events : List GLEvent
  totalFrames : Nat
  overallFPS : ℚ

/-- mainLoop (src/HelloCube.cpp, lines 137-178): run the loop, then add
the partial window's frame count to frames_total and report the total
and the overall average FPS over the whole run. -/
def mainLoop (app : BaseApplication) (t0 : ℚ) (inputs : List FrameInput) :
    RunReport :=
  let r := runLoop (initLoopState app t0) inputs
  let total := r.1.frames_total + r.1.frame
  { finalState := r.1
    events := r.2
    totalFrames := total
    overallFPS := (total : ℚ) / (r.1.app.timeCur - t0) }

/-- Parameters of initBaseApp that come from the environment: whether
glfwInit, window creation and gladLoadGL succeed, the GL names
Cube.initBasic receives, and the initial glfwGetTime sample. -/
structure InitEnv where
  glfwInitOk : Bool
  winCreated : Bool
  gladOk : Bool
  newVao : Nat
  newVbo0 : Nat
  newVbo1 : Nat
  t0 : ℚ

/-- initBaseApp (src/BaseApplication.h, lines 70-142): reset the state
fields, then perform the fallible initialization steps in order,
returning false at the first failure (leaving a partially initialized
state behind). -/
def initBaseApp (app : BaseApplication) (w h : Int) (env : InitEnv) :
    BaseApplication × Bool :=
  let app : BaseApplication :=
    { app with
        winValid := false
        width := w
        height := h
        flags := 1
        avg_frametime := -1
        avg_fps := -1
        pressedKeys := fun _ => false
        releasedKeys := fun _ => false
        cube := { app.cube with vbo0 := 0, vbo1 := 0, vao := 0 }
        program := 0 }
  if ¬ env.glfwInitOk then (app, false)
  else if ¬ env.winCreated then (app, false)
  else
    let app : BaseApplication := { app with winValid := true }
    if ¬ env.gladOk then (app, false)
    else
      let app : BaseApplication :=
        { app with
            cube := app.cube.initBasic env.newVao env.newVbo0 env.newVbo1
            timeCur := env.t0 }
      (app, true)

/-- True on the draw-call event. -/
def isDraw : GLEvent → Bool
  | GLEvent.drawElements _ => true
  | _ => false

/-- Number of draw calls in an event trace. -/
def countDraws (evs : List GLEvent) : Nat := evs.countP isDraw

/-- True on the events that assign a value to a uniform. -/
def isUniformWrite : GLEvent → Bool
  | GLEvent.uniformMatrix4fv _ _ => true
  | GLEvent.uniform1f _ _ => true
  | _ => false

/-- The uniform assignments of an event trace, in order. -/
def uniformWrites (evs : List GLEvent) : List GLEvent :=
  evs.filter isUniformWrite

/-- Total rotation angle (as a coefficient of pi/2) accumulated on top of
a base matrix by a chain of rotate applications. -/
def accumRot : GlmMat → ℚ
  | GlmMat.rotate m a _ _ _ => accumRot m + a
  | _ => 0

/-- Iteration inputs of a run at a fixed frame rate R starting at t0:
the i-th iteration samples time t0 + i / R and delivers no key events. -/
def fixedRateInputs (t0 : ℚ) (R : Nat) (n : Nat) : List FrameInput :=
  (List.range n).map (fun i => { now := t0 + (i : ℚ) / (R : ℚ), keyEvents := [] })

/-- Run a sequence of raw key events through callback_Keyboard (all with
the same build outcome), collecting the dispatched actions in order. -/
def runKeys : BaseApplication → ShaderBuild → List (Int × Nat) → List (Option KeyAction)
  | _, _, [] => []
  | app, b, e :: rest =>
    let r := callback_Keyboard app e.1 e.2 b
    r.2.2 :: runKeys r.1 b rest

/-- The states reachable by the program: an initBaseApp result, followed
by any interleaving of the operations that mutate the state. -/
inductive Reachable : BaseApplication → Prop where
  | init (app : BaseApplication) (w h : Int) (env : InitEnv) :
      Reachable (initBaseApp app w h env).1
  | key (app : BaseApplication) (k : Int) (a : Nat) (b : ShaderBuild) :
      Reachable app → Reachable (callback_Keyboard app k a b).1
  | resize (app : BaseApplication) (w h : Int) :
      Reachable app → Reachable (callback_Resize app w h)
  | frame (s : LoopState) (fi : FrameInput) :
      Reachable s.app → Reachable (loopIter s fi).1.app
  | shaders (app : BaseApplication) (b : ShaderBuild) :
      Reachable app → Reachable (initShaders app b).1
  | shutdown (app : BaseApplication) :
      Reachable app → Reachable app.destroy.1

/-- A concrete fully initialized application state used for witnesses
and counterexamples: program 5 bound, cube buffers 1/2/3 allocated. -/
def demoApp : BaseApplication :=
  { winValid := true
    width := 800
    height := 600
    flags := 1
    timeCur := 0
    timeDelta := 0
    avg_frametime := -1
    avg_fps := -1
    pressedKeys := fun _ => false
    releasedKeys := fun _ => false
    cube := { vbo0 := 2, vbo1 := 3, vao := 1, model := GlmMat.identity }
    program := 5
    locProjection := 0
    locModelView := 1
    locTime := 2
    locCameraPos := -1
    projection := GlmMat.identity
    view := GlmMat.identity }

/-- A build outcome standing for a failed programCreateFromFiles. -/
def failedBuild : ShaderBuild :=
  { program := 0, locProjection := -1, locModelView := -1, locTime := -1,
    locCameraPos := -1 }

/-- A build outcome standing for a successful programCreateFromFiles. -/
def okBuild : ShaderBuild :=
  { program := 7, locProjection := 0, locModelView := 1, locTime := 2,
    locCameraPos := 3 }

/-- A concrete loop state two seconds past its statistics baseline with
four counted frames, used for witnesses. -/
def demoLoop : LoopState :=
  { app := { demoApp with timeCur := 2 }
    frame := 4
    frames_total := 0
    start_time := 0
    last_time := 0 }

/-! Helper lemmas. -/

theorem destroyShaders_program (app : BaseApplication) :
    (destroyShaders app).1.program = 0 := by
  unfold destroyShaders
  by_cases h : app.program ≠ 0 <;> simp [h]
  omega

theorem destroyShaders_of_no_program (app : BaseApplication)
    (h : app.program = 0) : destroyShaders app = (app, []) := by
  unfold destroyShaders
  simp [h]

theorem cube_destroy_zeroed (c : Cube) :
    (Cube.destroy c).1.vao = 0 ∧ (Cube.destroy c).1.vbo0 = 0
      ∧ (Cube.destroy c).1.vbo1 = 0 := by
  unfold Cube.destroy
  by_cases h1 : c.vao ≠ 0 <;> by_cases h2 : c.vbo0 ≠ 0 ∨ c.vbo1 ≠ 0 <;>
    simp [h1, h2] <;> omega

theorem cube_destroy_of_zeroed (c : Cube) (h0 : c.vao = 0) (h1 : c.vbo0 = 0)
    (h2 : c.vbo1 = 0) : Cube.destroy c = (c, [GLEvent.bindVertexArray 0]) := by
  unfold Cube.destroy
  simp [h0, h1, h2]

theorem destroy_result (app : BaseApplication) (hf : app.flags ≠ 0) :
    (app.destroy).1
      = { app with cube := (app.cube.destroy).1, program := 0 } := by
  unfold BaseApplication.destroy destroyShaders
  by_cases hp : app.program = 0 <;> simp [hf, hp]

theorem destroy_result_of_flags_zero (app : BaseApplication)
    (hf : app.flags = 0) : app.destroy = (app, []) := by
  unfold BaseApplication.destroy
  simp [hf]

theorem destroy_twice_events (app : BaseApplication) :
    ((app.destroy).1.destroy).2
      = if app.flags ≠ 0 then
          [GLEvent.bindVertexArray 0]
            ++ (if app.winValid then [GLEvent.destroyWindow] else [])
            ++ [GLEvent.glfwTerminate]
        else [] := by
  by_cases hf : app.flags ≠ 0
  · have hc := cube_destroy_zeroed app.cube
    rw [destroy_result app hf]
    by_cases hw : app.winValid <;>
      simp [BaseApplication.destroy, destroyShaders, hf, hw,
        cube_destroy_of_zeroed _ hc.1 hc.2.1 hc.2.2]
  · simp only [ne_eq, not_not] at hf
    rw [destroy_result_of_flags_zero app hf, destroy_result_of_flags_zero app hf]
    simp [hf]

/-! Theorems for the claims. -/

/-- C1 counterexample: starting from a state with program 5 bound, a
failed build (initShaders with a build outcome of 0) returns failure but
does NOT keep the previous program bound: the old program has already
been deleted and the program field is 0 afterwards, refuting the claim
that the previous program remains bound and is destroyed only after a
successful build. -/
theorem c1_counterexample :
    demoApp.program = 5
      ∧ (initShaders demoApp failedBuild).2.2 = false
      ∧ (initShaders demoApp failedBuild).1.program ≠ demoApp.program
      ∧ (initShaders demoApp failedBuild).2.1 = [GLEvent.deleteProgram 5] := by
  decide

/-- C1 (amended): initShaders destroys the previous program BEFORE
attempting the build; when the build fails it returns false and leaves
the state with no program bound (program = 0) — the previously bound
program has been deleted, not retained — while the stored uniform
locations are left unchanged. -/
theorem c1_initShaders_failure_loses_old_program
    (app : BaseApplication) (b : ShaderBuild) (hb : b.program = 0) :
    (initShaders app b).2.2 = false
      ∧ (initShaders app b).1.program = 0
      ∧ (app.program ≠ 0 →
          (initShaders app b).2.1 = [GLEvent.deleteProgram app.program])
      ∧ (initShaders app b).1.locProjection = app.locProjection
      ∧ (initShaders app b).1.locModelView = app.locModelView
      ∧ (initShaders app b).1.locTime = app.locTime
      ∧ (initShaders app b).1.locCameraPos = app.locCameraPos := by
  unfold initShaders destroyShaders
  by_cases hp : app.program ≠ 0 <;> simp [hp, hb]

/-- Witness for C1: the amended theorem applied to the concrete state
with program 5 and a failing build. -/
theorem c1_witness :
    failedBuild.program = 0
      ∧ demoApp.program ≠ 0
      ∧ (initShaders demoApp failedBuild).2.2 = false
      ∧ (initShaders demoApp failedBuild).1.program = 0
      ∧ (initShaders demoApp failedBuild).2.1
          = [GLEvent.deleteProgram demoApp.program] := by
  have h := c1_initShaders_failure_loses_old_program demoApp failedBuild rfl
  exact ⟨rfl, by decide, h.1, h.2.1, h.2.2.1 (by decide)⟩

/-- C2 counterexample: in a state with no program bound (program = 0)
the display function still emits the draw call (and a glUseProgram 0),
refuting the claim that the draw of the mesh is skipped entirely when no
program is bound. -/
theorem c2_counterexample :
    ({ demoApp with program := 0 } : BaseApplication).program = 0
      ∧ GLEvent.drawElements 36
          ∈ (displayFunc { demoApp with program := 0 }).2 := by
  decide

/-- C2 (amended): displayFunc never tests whether a program is bound: in
every frame-loop iteration it unconditionally emits glUseProgram of the
current program field (0 when none is bound) followed by the draw call,
so a frame without a bound program still issues the draw (which renders
nothing, leaving the cleared, blank frame); there is no skip branch and
no error handling. -/
theorem c2_draw_issued_unconditionally (app : BaseApplication) :
    GLEvent.useProgram app.program ∈ (displayFunc app).2
      ∧ GLEvent.drawElements 36 ∈ (displayFunc app).2 := by
  unfold displayFunc
  simp

/-- C3 counterexample: on a fully initialized state, destroy() destroys
the window, and a second destroy() destroys the window again (and
terminates GLFW again): the second call is not a no-op and the window is
released twice, refuting the claim. -/
theorem c3_counterexample :
    GLEvent.destroyWindow ∈ (demoApp.destroy).2
      ∧ GLEvent.destroyWindow ∈ ((demoApp.destroy).1.destroy).2
      ∧ ((demoApp.destroy).1.destroy).2 ≠ [] := by
  decide

/-- C3 (amended): the GPU-object sub-destroys are idempotent — a second
destroy() never again deletes a program, a vertex array or a buffer,
because those handles are validity-checked and zeroed on release — but
destroy() clears neither the `flags` field nor the window handle, so on
a state that still holds a window the second destroy() destroys the
window a second time and terminates the windowing library again: it is
not a no-op. -/
theorem c3_second_destroy_releases_window_again (app : BaseApplication) :
    (∀ p, GLEvent.deleteProgram p ∉ ((app.destroy).1.destroy).2)
      ∧ (∀ v, GLEvent.deleteVertexArrays v ∉ ((app.destroy).1.destroy).2)
      ∧ (∀ b0 b1, GLEvent.deleteBuffers b0 b1 ∉ ((app.destroy).1.destroy).2)
      ∧ (app.flags ≠ 0 → app.winValid = true →
          GLEvent.destroyWindow ∈ ((app.destroy).1.destroy).2
            ∧ GLEvent.glfwTerminate ∈ ((app.destroy).1.destroy).2) := by
  rw [destroy_twice_events app]
  by_cases hf : app.flags ≠ 0 <;> by_cases hw : app.winValid <;>
    simp [hf, hw]

/-- Witness for C3: the amended theorem applied to the concrete fully
initialized state. -/
theorem c3_witness :
    demoApp.flags ≠ 0
      ∧ demoApp.winValid = true
      ∧ GLEvent.destroyWindow ∈ ((demoApp.destroy).1.destroy).2
      ∧ (∀ p, GLEvent.deleteProgram p ∉ ((demoApp.destroy).1.destroy).2) := by
  have h := c3_second_destroy_releases_window_again demoApp
  exact ⟨by decide, rfl, (h.2.2.2 (by decide) rfl).1, h.1⟩

theorem initShaders_pressedKeys (app : BaseApplication) (b : ShaderBuild) :
    (initShaders app b).1.pressedKeys = app.pressedKeys := by
  unfold initShaders destroyShaders
  by_cases hp : app.program ≠ 0 <;> by_cases hb : b.program = 0 <;>
    simp [hp, hb]

theorem callback_held (app : BaseApplication) (k : Int) (a : Nat)
    (b : ShaderBuild) (hk : ¬(k < 0 ∨ k > GLFW_KEY_LAST))
    (ha : a ≠ GLFW_RELEASE) (hp : app.pressedKeys k.toNat = true) :
    (callback_Keyboard app k a b).2.2 = none
      ∧ (callback_Keyboard app k a b).1.pressedKeys k.toNat = true := by
  unfold callback_Keyboard
  simp [hk, ha, hp, setKey]

theorem callback_edge_fires (app : BaseApplication) (k : Int) (a : Nat)
    (b : ShaderBuild) (hk : ¬(k < 0 ∨ k > GLFW_KEY_LAST))
    (ha : a ≠ GLFW_RELEASE) (hp : app.pressedKeys k.toNat = false) :
    (callback_Keyboard app k a b).2.2 = keyMapped k.toNat
      ∧ (callback_Keyboard app k a b).1.pressedKeys k.toNat = true := by
  simp only [callback_Keyboard, keyMapped]
  rw [if_neg hk, if_neg ha, if_neg (by simp [hp])]
  by_cases hd : 48 ≤ k.toNat ∧ k.toNat ≤ 57
  · rw [if_pos hd, if_pos hd]
    exact ⟨rfl, by simp [setKey]⟩
  · rw [if_neg hd, if_neg hd]
    by_cases he : k.toNat = GLFW_KEY_ESCAPE
    · rw [if_pos he, if_pos he]
      exact ⟨rfl, by simp [setKey]⟩
    · rw [if_neg he, if_neg he]
      exact ⟨rfl, by simp [setKey]⟩

theorem runKeys_all_held (app : BaseApplication) (k : Int) (b : ShaderBuild)
    (n : Nat) (hk : ¬(k < 0 ∨ k > GLFW_KEY_LAST))
    (hp : app.pressedKeys k.toNat = true) :
    runKeys app b (List.replicate n (k, GLFW_REPEAT))
      = List.replicate n none := by
  induction n generalizing app with
  | zero => rfl
  | succ n ih =>
    have h := callback_held app k GLFW_REPEAT b hk (by decide) hp
    simp only [List.replicate_succ, runKeys, h.1]
    rw [ih _ h.2]

/-- C4: key-press edge detection.  For every in-range key: a press event
on a not-pressed key dispatches the key's mapped action and records the
key as pressed; the following repeat (held) events, any number of them,
dispatch nothing; a release event dispatches nothing and re-arms the
key; and a dispatch can only ever happen on a not-pressed key with a
non-release action, so the action fires exactly once per physical press. -/
theorem c4_press_edge_triggers_once :
    (∀ (app : BaseApplication) (k : Int) (b : ShaderBuild) (n : Nat),
        ¬(k < 0 ∨ k > GLFW_KEY_LAST) → app.pressedKeys k.toNat = false →
        runKeys app b ((k, GLFW_PRESS) :: List.replicate n (k, GLFW_REPEAT))
          = keyMapped k.toNat :: List.replicate n none)
      ∧ (∀ (app : BaseApplication) (k : Int) (a : Nat) (b : ShaderBuild),
          ¬(k < 0 ∨ k > GLFW_KEY_LAST) → a ≠ GLFW_RELEASE →
          app.pressedKeys k.toNat = true →
          (callback_Keyboard app k a b).2.2 = none
            ∧ (callback_Keyboard app k a b).1.pressedKeys k.toNat = true)
      ∧ (∀ (app : BaseApplication) (k : Int) (b : ShaderBuild),
          ¬(k < 0 ∨ k > GLFW_KEY_LAST) →
          (callback_Keyboard app k GLFW_RELEASE b).2.2 = none
            ∧ (callback_Keyboard app k GLFW_RELEASE b).1.pressedKeys k.toNat
                = false)
      ∧ (∀ (app : BaseApplication) (k : Int) (a : Nat) (b : ShaderBuild),
          (callback_Keyboard app k a b).2.2 ≠ none →
          ¬(k < 0 ∨ k > GLFW_KEY_LAST) ∧ a ≠ GLFW_RELEASE
            ∧ app.pressedKeys k.toNat = false) := by
  refine ⟨?_, callback_held, ?_, ?_⟩
  · intro app k b n hk hp
    have h := callback_edge_fires app k GLFW_PRESS b hk (by decide) hp
    simp only [runKeys, h.1]
    rw [runKeys_all_held _ k b n hk h.2]
  · intro app k b hk
    unfold callback_Keyboard
    simp [hk, GLFW_RELEASE, setKey]
  · intro app k a b h
    by_cases hk : k < 0 ∨ k > GLFW_KEY_LAST
    · exfalso
      apply h
      unfold callback_Keyboard
      simp [hk]
    · refine ⟨hk, ?_, ?_⟩
      · intro ha
        apply h
        unfold callback_Keyboard
        simp [hk, ha, GLFW_RELEASE]
      · by_cases hp : app.pressedKeys k.toNat = true
        · exfalso
          apply h
          by_cases ha : a = GLFW_RELEASE
          · unfold callback_Keyboard
            simp [hk, ha, GLFW_RELEASE]
          · exact (callback_held app k a b hk ha hp).1
        · simpa using hp

/-- Witness for C4: pressing and holding the digit-1 key from the idle
state dispatches its shader swap exactly once across three events. -/
theorem c4_witness :
    ¬((49 : Int) < 0 ∨ (49 : Int) > GLFW_KEY_LAST)
      ∧ demoApp.pressedKeys (49 : Int).toNat = false
      ∧ runKeys demoApp okBuild
          ((49, GLFW_PRESS) :: List.replicate 2 (49, GLFW_REPEAT))
        = keyMapped 49 :: List.replicate 2 none := by
  exact ⟨by decide, rfl,
    c4_press_edge_triggers_once.1 demoApp 49 okBuild 2 (by decide) rfl⟩

/-- C8: dispatch of a key-press edge.  A digit key '0'-'9' (codes 48-57)
dispatches a shader swap whose file pair is the corresponding entry of
the fixed ten-entry table and performs initShaders with it; the Escape
key emits the window-close request; any other in-range key changes
nothing except recording the key as pressed (no events, no action). -/
theorem c8_key_dispatch :
    shadersTable.length = 10
      ∧ (∀ (app : BaseApplication) (k : Int) (b : ShaderBuild),
          48 ≤ k → k ≤ 57 → app.pressedKeys k.toNat = false →
          callback_Keyboard app k GLFW_PRESS b
            = ({ (initShaders app b).1 with
                  pressedKeys := setKey app.pressedKeys k.toNat true },
                (initShaders app b).2.1,
                some (KeyAction.swapShader
                  (shadersTable.getD (k.toNat - 48) ("", "")).1
                  (shadersTable.getD (k.toNat - 48) ("", "")).2)))
      ∧ (∀ (app : BaseApplication) (b : ShaderBuild),
          app.pressedKeys GLFW_KEY_ESCAPE = false →
          callback_Keyboard app 256 GLFW_PRESS b
            = ({ app with
                  pressedKeys := setKey app.pressedKeys GLFW_KEY_ESCAPE true },
                [GLEvent.setWindowShouldClose], some KeyAction.quit))
      ∧ (∀ (app : BaseApplication) (k : Int) (b : ShaderBuild),
          0 ≤ k → k ≤ GLFW_KEY_LAST → ¬(48 ≤ k ∧ k ≤ 57) → k ≠ 256 →
          app.pressedKeys k.toNat = false →
          callback_Keyboard app k GLFW_PRESS b
            = ({ app with pressedKeys := setKey app.pressedKeys k.toNat true },
                [], none)) := by
  refine ⟨rfl, ?_, ?_, ?_⟩
  · intro app k b h1 h2 hp
    simp only [callback_Keyboard]
    rw [if_neg (by simp only [GLFW_KEY_LAST]; omega),
      if_neg (by decide : GLFW_PRESS ≠ GLFW_RELEASE),
      if_neg (by simp [hp]),
      if_pos (by omega : 48 ≤ k.toNat ∧ k.toNat ≤ 57),
      initShaders_pressedKeys]
  · intro app b hp
    simp only [callback_Keyboard]
    rw [if_neg (by decide), if_neg (by decide : GLFW_PRESS ≠ GLFW_RELEASE),
      if_neg (by simpa [GLFW_KEY_ESCAPE] using hp),
      if_neg (by decide), if_pos (by decide)]
    rfl
  · intro app k b h0 h1 hd he hp
    simp only [callback_Keyboard]
    rw [if_neg (by simp only [GLFW_KEY_LAST] at h1 ⊢; omega),
      if_neg (by decide : GLFW_PRESS ≠ GLFW_RELEASE),
      if_neg (by simp [hp]),
      if_neg (by omega : ¬(48 ≤ k.toNat ∧ k.toNat ≤ 57)),
      if_neg (by simp only [GLFW_KEY_ESCAPE]; omega)]

/-- Witness for C8: pressing the digit-1 key on the idle state swaps to
table entry 1 and pressing Escape requests close. -/
theorem c8_witness :
    demoApp.pressedKeys (49 : Int).toNat = false
      ∧ callback_Keyboard demoApp 49 GLFW_PRESS okBuild
          = ({ (initShaders demoApp okBuild).1 with
                pressedKeys := setKey demoApp.pressedKeys (49 : Int).toNat true },
              (initShaders demoApp okBuild).2.1,
              some (KeyAction.swapShader
                (shadersTable.getD ((49 : Int).toNat - 48) ("", "")).1
                (shadersTable.getD ((49 : Int).toNat - 48) ("", "")).2))
      ∧ callback_Keyboard demoApp 256 GLFW_PRESS okBuild
          = ({ demoApp with
                pressedKeys := setKey demoApp.pressedKeys GLFW_KEY_ESCAPE true },
              [GLEvent.setWindowShouldClose], some KeyAction.quit) := by
  exact ⟨rfl,
    c8_key_dispatch.2.1 demoApp 49 okBuild (by decide) (by decide) rfl,
    c8_key_dispatch.2.2.1 demoApp okBuild rfl⟩

/-- C9: after every successful build, initShaders resolves and logs the
cameraPosition uniform location; yet a frame writes exactly the
projection, modelView and time uniforms — the write list of displayFunc
is precisely those three — and displayFunc leaves the program handle and
all four stored locations unchanged. -/
theorem c9_cameraPosition_resolved_never_written :
    (∀ (app : BaseApplication) (b : ShaderBuild), b.program ≠ 0 →
        (initShaders app b).2.2 = true
          ∧ (initShaders app b).1.locCameraPos = b.locCameraPos
          ∧ GLEvent.logUniformLocation "locCameraPos" b.locCameraPos
              ∈ (initShaders app b).2.1)
      ∧ (∀ app : BaseApplication,
          uniformWrites (displayFunc app).2
              = [GLEvent.uniformMatrix4fv app.locProjection
                   (displayFunc app).1.projection,
                 GLEvent.uniformMatrix4fv app.locModelView
                   (GlmMat.mul (displayFunc app).1.view
                     (displayFunc app).1.cube.model),
                 GLEvent.uniform1f app.locTime app.timeCur]
            ∧ (displayFunc app).1.program = app.program
            ∧ (displayFunc app).1.locProjection = app.locProjection
            ∧ (displayFunc app).1.locModelView = app.locModelView
            ∧ (displayFunc app).1.locTime = app.locTime
            ∧ (displayFunc app).1.locCameraPos = app.locCameraPos) := by
  constructor
  · intro app b hb
    unfold initShaders destroyShaders
    by_cases hp : app.program ≠ 0 <;> simp [hp, hb]
  · intro app
    exact ⟨rfl, rfl, rfl, rfl, rfl, rfl⟩

/-- Witness for C9: a successful build on the concrete state resolves
the cameraPosition location to 3 and logs it. -/
theorem c9_witness :
    okBuild.program ≠ 0
      ∧ (initShaders demoApp okBuild).1.locCameraPos = okBuild.locCameraPos
      ∧ GLEvent.logUniformLocation "locCameraPos" okBuild.locCameraPos
          ∈ (initShaders demoApp okBuild).2.1 := by
  have h := c9_cameraPosition_resolved_never_written.1 demoApp okBuild
    (by decide)
  exact ⟨by decide, h.2.1, h.2.2⟩

theorem initShaders_preserves (app : BaseApplication) (b : ShaderBuild) :
    (initShaders app b).1.cube = app.cube
      ∧ (initShaders app b).1.timeCur = app.timeCur
      ∧ (initShaders app b).1.avg_frametime = app.avg_frametime
      ∧ (initShaders app b).1.avg_fps = app.avg_fps
      ∧ (initShaders app b).1.releasedKeys = app.releasedKeys := by
  unfold initShaders destroyShaders
  by_cases hp : app.program ≠ 0 <;> by_cases hb : b.program = 0 <;>
    simp [hp, hb]

theorem callback_preserves (app : BaseApplication) (k : Int) (a : Nat)
    (b : ShaderBuild) :
    (callback_Keyboard app k a b).1.cube = app.cube
      ∧ (callback_Keyboard app k a b).1.timeCur = app.timeCur
      ∧ (callback_Keyboard app k a b).1.avg_frametime = app.avg_frametime
      ∧ (callback_Keyboard app k a b).1.avg_fps = app.avg_fps
      ∧ (callback_Keyboard app k a b).1.releasedKeys = app.releasedKeys := by
  simp only [callback_Keyboard]
  split_ifs <;> simp [initShaders_preserves]

theorem pollEvents_preserves (app : BaseApplication) (es : List KeyEvent) :
    (pollEvents app es).1.cube = app.cube
      ∧ (pollEvents app es).1.timeCur = app.timeCur
      ∧ (pollEvents app es).1.avg_frametime = app.avg_frametime
      ∧ (pollEvents app es).1.avg_fps = app.avg_fps
      ∧ (pollEvents app es).1.releasedKeys = app.releasedKeys := by
  induction es generalizing app with
  | nil => exact ⟨rfl, rfl, rfl, rfl, rfl⟩
  | cons e rest ih =>
    have hc := callback_preserves app e.key e.action e.build
    have hr := ih (callback_Keyboard app e.key e.action e.build).1
    simp only [pollEvents]
    exact ⟨hr.1.trans hc.1, hr.2.1.trans hc.2.1, hr.2.2.1.trans hc.2.2.1,
      hr.2.2.2.1.trans hc.2.2.2.1, hr.2.2.2.2.trans hc.2.2.2.2⟩

theorem updateStats_preserves (s : LoopState) :
    (updateStats s).1.app.cube = s.app.cube
      ∧ (updateStats s).1.app.timeCur = s.app.timeCur
      ∧ (updateStats s).1.app.timeDelta = s.app.timeDelta
      ∧ (updateStats s).1.app.releasedKeys = s.app.releasedKeys
      ∧ (updateStats s).1.start_time = s.start_time := by
  simp only [updateStats]
  split_ifs <;> exact ⟨rfl, rfl, rfl, rfl, rfl⟩

theorem updateStats_frames_sum (s : LoopState) :
    (updateStats s).1.frames_total + (updateStats s).1.frame
      = s.frames_total + s.frame := by
  simp only [updateStats]
  split_ifs <;> simp

theorem updateStats_no_refresh (s : LoopState)
    (h : s.app.timeCur - s.last_time < 1) :
    updateStats s = (s, []) := by
  simp only [updateStats]
  rw [if_neg (by exact not_le.mpr h)]

theorem loopIter_app_state (s : LoopState) (fi : FrameInput) :
    (loopIter s fi).1.app.timeCur = fi.now
      ∧ accumRot (loopIter s fi).1.app.cube.model
          = accumRot s.app.cube.model + (fi.now - s.app.timeCur)
      ∧ (loopIter s fi).1.app.releasedKeys = s.app.releasedKeys
      ∧ (loopIter s fi).1.frames_total + (loopIter s fi).1.frame
          = s.frames_total + s.frame + 1 := by
  simp only [loopIter]
  have hu := updateStats_preserves
    { s with app := { s.app with
        timeDelta := fi.now - s.app.timeCur, timeCur := fi.now } }
  have hus := updateStats_frames_sum
    { s with app := { s.app with
        timeDelta := fi.now - s.app.timeCur, timeCur := fi.now } }
  have hp := pollEvents_preserves
    (displayFunc (updateStats { s with app := { s.app with
        timeDelta := fi.now - s.app.timeCur, timeCur := fi.now } }).1.app).1
    fi.keyEvents
  refine ⟨?_, ?_, ?_, ?_⟩
  · rw [hp.2.1]
    exact hu.2.1
  · rw [hp.1]
    show accumRot (GlmMat.rotate _ _ _ _ _) = _
    simp only [accumRot]
    rw [hu.1, hu.2.2.1]
  · rw [hp.2.2.2.2]
    exact hu.2.2.2.1
  · simp only at hus ⊢
    omega

theorem runLoop_append (s : LoopState) (xs ys : List FrameInput) :
    runLoop s (xs ++ ys)
      = ((runLoop (runLoop s xs).1 ys).1,
          (runLoop s xs).2 ++ (runLoop (runLoop s xs).1 ys).2) := by
  induction xs generalizing s with
  | nil => simp [runLoop]
  | cons x xs ih =>
    simp only [List.cons_append, runLoop, List.append_eq, ih,
      List.append_assoc]

theorem runLoop_accum (s : LoopState) (inputs : List FrameInput) :
    accumRot (runLoop s inputs).1.app.cube.model
      = accumRot s.app.cube.model
          + ((runLoop s inputs).1.app.timeCur - s.app.timeCur) := by
  induction inputs generalizing s with
  | nil => simp [runLoop]
  | cons fi rest ih =>
    have hi := loopIter_app_state s fi
    simp only [runLoop]
    rw [ih (loopIter s fi).1, hi.2.1, hi.1]
    ring

theorem runLoop_frames (s : LoopState) (inputs : List FrameInput) :
    (runLoop s inputs).1.frames_total + (runLoop s inputs).1.frame
      = s.frames_total + s.frame + inputs.length := by
  induction inputs generalizing s with
  | nil => simp [runLoop]
  | cons fi rest ih =>
    have hi := loopIter_app_state s fi
    simp only [runLoop, List.length_cons]
    rw [ih (loopIter s fi).1, hi.2.2.2]
    ring

theorem countDraws_append (a b : List GLEvent) :
    countDraws (a ++ b) = countDraws a + countDraws b :=
  List.countP_append _ _ _

theorem countDraws_initShaders (app : BaseApplication) (b : ShaderBuild) :
    countDraws (initShaders app b).2.1 = 0 := by
  simp only [initShaders, destroyShaders]
  split_ifs <;> rfl

theorem countDraws_callback (app : BaseApplication) (k : Int) (a : Nat)
    (b : ShaderBuild) :
    countDraws (callback_Keyboard app k a b).2.1 = 0 := by
  simp only [callback_Keyboard]
  split_ifs <;> first
    | rfl
    | exact countDraws_initShaders app b

theorem countDraws_pollEvents (app : BaseApplication) (es : List KeyEvent) :
    countDraws (pollEvents app es).2 = 0 := by
  induction es generalizing app with
  | nil => rfl
  | cons e rest ih =>
    simp only [pollEvents]
    rw [countDraws_append, countDraws_callback, ih]

theorem countDraws_updateStats (s : LoopState) :
    countDraws (updateStats s).2 = 0 := by
  simp only [updateStats]
  split_ifs <;> rfl

theorem countDraws_loopIter (s : LoopState) (fi : FrameInput) :
    countDraws (loopIter s fi).2 = 1 := by
  simp only [loopIter]
  rw [countDraws_append, countDraws_append, countDraws_updateStats,
    countDraws_pollEvents]
  rfl

theorem countDraws_runLoop (s : LoopState) (inputs : List FrameInput) :
    countDraws (runLoop s inputs).2 = inputs.length := by
  induction inputs generalizing s with
  | nil => rfl
  | cons fi rest ih =>
    simp only [runLoop, List.length_cons]
    rw [countDraws_append, countDraws_loopIter, ih]
    ring

theorem updateStats_refresh (s : LoopState)
    (h : 1 ≤ s.app.timeCur - s.last_time) :
    updateStats s
      = ({ s with
            app := { s.app with
              avg_frametime :=
                1000 * (s.app.timeCur - s.last_time) / (s.frame : ℚ)
              avg_fps := (s.frame : ℚ) / (s.app.timeCur - s.last_time) }
            last_time := s.app.timeCur
            frames_total := s.frames_total + s.frame
            frame := 0 },
          [GLEvent.setWindowTitle
            (1000 * (s.app.timeCur - s.last_time) / (s.frame : ℚ))
            ((s.frame : ℚ) / (s.app.timeCur - s.last_time))]) := by
  simp only [updateStats]
  rw [if_pos h]

theorem loopIter_no_refresh (s : LoopState) (fi : FrameInput)
    (h : fi.now - s.last_time < 1) :
    (loopIter s fi).1.frame = s.frame + 1
      ∧ (loopIter s fi).1.frames_total = s.frames_total
      ∧ (loopIter s fi).1.last_time = s.last_time
      ∧ (loopIter s fi).1.app.avg_fps = s.app.avg_fps
      ∧ (loopIter s fi).1.app.avg_frametime = s.app.avg_frametime := by
  simp only [loopIter]
  rw [updateStats_no_refresh
    { s with app := { s.app with
        timeDelta := fi.now - s.app.timeCur, timeCur := fi.now } }
    (by simp only; exact h)]
  exact ⟨rfl, rfl, rfl, (pollEvents_preserves _ _).2.2.2.1,
    (pollEvents_preserves _ _).2.2.1⟩

theorem loopIter_refresh (s : LoopState) (fi : FrameInput)
    (h : 1 ≤ fi.now - s.last_time) :
    (loopIter s fi).1.app.avg_fps = (s.frame : ℚ) / (fi.now - s.last_time)
      ∧ (loopIter s fi).1.app.avg_frametime
          = 1000 * (fi.now - s.last_time) / (s.frame : ℚ)
      ∧ (loopIter s fi).1.frame = 1
      ∧ (loopIter s fi).1.frames_total = s.frames_total + s.frame
      ∧ (loopIter s fi).1.last_time = fi.now := by
  simp only [loopIter]
  rw [updateStats_refresh
    { s with app := { s.app with
        timeDelta := fi.now - s.app.timeCur, timeCur := fi.now } }
    (by simp only; exact h)]
  exact ⟨(pollEvents_preserves _ _).2.2.2.1, (pollEvents_preserves _ _).2.2.1,
    rfl, rfl, rfl⟩

theorem fixedRate_inv (app : BaseApplication) (t0 : ℚ) (R : Nat) :
    ∀ n, n ≤ R →
      (runLoop (initLoopState app t0) (fixedRateInputs t0 R n)).1.frame = n
        ∧ (runLoop (initLoopState app t0)
            (fixedRateInputs t0 R n)).1.frames_total = 0
        ∧ (runLoop (initLoopState app t0)
            (fixedRateInputs t0 R n)).1.last_time = t0
        ∧ (runLoop (initLoopState app t0)
            (fixedRateInputs t0 R n)).1.app.avg_fps = app.avg_fps
        ∧ (runLoop (initLoopState app t0)
            (fixedRateInputs t0 R n)).1.app.avg_frametime
              = app.avg_frametime := by
  intro n
  induction n with
  | zero => exact fun _ => ⟨rfl, rfl, rfl, rfl, rfl⟩
  | succ n ih =>
    intro hn
    obtain ⟨h1, h2, h3, h4, h5⟩ := ih (Nat.le_of_succ_le hn)
    have hsplit : fixedRateInputs t0 R (n + 1)
        = fixedRateInputs t0 R n
            ++ [{ now := t0 + (n : ℚ) / (R : ℚ), keyEvents := [] }] := by
      simp [fixedRateInputs, List.range_succ]
    rw [hsplit, runLoop_append]
    have hrq : (0 : ℚ) < (R : ℚ) := by
      have : 0 < R := by omega
      exact_mod_cast this
    have hfrac : (n : ℚ) / (R : ℚ) < 1 := by
      rw [div_lt_one hrq]
      exact_mod_cast Nat.lt_of_succ_le hn
    have helapsed :
        ({ now := t0 + (n : ℚ) / (R : ℚ), keyEvents := [] } : FrameInput).now
          - (runLoop (initLoopState app t0)
              (fixedRateInputs t0 R n)).1.last_time < 1 := by
      rw [h3]
      simp only
      linarith
    have hit := loopIter_no_refresh _ _ helapsed
    have hone : runLoop (runLoop (initLoopState app t0)
          (fixedRateInputs t0 R n)).1
        [{ now := t0 + (n : ℚ) / (R : ℚ), keyEvents := [] }]
        = ((loopIter (runLoop (initLoopState app t0)
            (fixedRateInputs t0 R n)).1
            { now := t0 + (n : ℚ) / (R : ℚ), keyEvents := [] }).1,
           (loopIter (runLoop (initLoopState app t0)
            (fixedRateInputs t0 R n)).1
            { now := t0 + (n : ℚ) / (R : ℚ), keyEvents := [] }).2) := by
      simp [runLoop]
    rw [hone]
    refine ⟨?_, ?_, ?_, ?_, ?_⟩
    · rw [hit.1, h1]
    · rw [hit.2.1, h2]
    · rw [hit.2.2.1, h3]
    · rw [hit.2.2.2.1, h4]
    · rw [hit.2.2.2.2, h5]

/-- C5: once at least 1.0 second elapsed since the last statistics
refresh, the refresh recomputes avg_frametime = 1000 * elapsed / frames
and avg_fps = frames / elapsed, zeroes the frame counter, accumulates it
into the running total and moves the baseline to the current time; and
for frames produced at a fixed rate R for exactly 1.0 time unit the
reported rolling average FPS equals R exactly (within the claimed ±1),
with the counters reset after reporting. -/
theorem c5_rolling_average :
    (∀ s : LoopState, 1 ≤ s.app.timeCur - s.last_time →
        (updateStats s).1.app.avg_frametime
            = 1000 * (s.app.timeCur - s.last_time) / (s.frame : ℚ)
          ∧ (updateStats s).1.app.avg_fps
              = (s.frame : ℚ) / (s.app.timeCur - s.last_time)
          ∧ (updateStats s).1.frame = 0
          ∧ (updateStats s).1.last_time = s.app.timeCur
          ∧ (updateStats s).1.frames_total = s.frames_total + s.frame)
      ∧ (∀ (app : BaseApplication) (t0 : ℚ) (R : Nat), 1 ≤ R →
          (runLoop (initLoopState app t0)
              (fixedRateInputs t0 R (R + 1))).1.app.avg_fps = (R : ℚ)
            ∧ (runLoop (initLoopState app t0)
                (fixedRateInputs t0 R (R + 1))).1.app.avg_frametime
                  = 1000 / (R : ℚ)
            ∧ (runLoop (initLoopState app t0)
                (fixedRateInputs t0 R (R + 1))).1.frame = 1
            ∧ (runLoop (initLoopState app t0)
                (fixedRateInputs t0 R (R + 1))).1.frames_total = R
            ∧ (runLoop (initLoopState app t0)
                (fixedRateInputs t0 R (R + 1))).1.last_time = t0 + 1) := by
  constructor
  · intro s h
    rw [updateStats_refresh s h]
    exact ⟨rfl, rfl, rfl, rfl, rfl⟩
  · intro app t0 R hR
    have hRne : ((R : ℚ)) ≠ 0 := Nat.cast_ne_zero.mpr (by omega)
    have hsplit : fixedRateInputs t0 R (R + 1)
        = fixedRateInputs t0 R R
            ++ [{ now := t0 + (R : ℚ) / (R : ℚ), keyEvents := [] }] := by
      simp [fixedRateInputs, List.range_succ]
    obtain ⟨h1, h2, h3, h4, h5⟩ := fixedRate_inv app t0 R R le_rfl
    have hnow : t0 + (R : ℚ) / (R : ℚ)
        - (runLoop (initLoopState app t0)
            (fixedRateInputs t0 R R)).1.last_time = 1 := by
      rw [h3, div_self hRne]
      ring
    have hit := loopIter_refresh
      (runLoop (initLoopState app t0) (fixedRateInputs t0 R R)).1
      { now := t0 + (R : ℚ) / (R : ℚ), keyEvents := [] }
      (le_of_eq hnow.symm)
    have hone : runLoop (runLoop (initLoopState app t0)
          (fixedRateInputs t0 R R)).1
        [{ now := t0 + (R : ℚ) / (R : ℚ), keyEvents := [] }]
        = ((loopIter (runLoop (initLoopState app t0)
            (fixedRateInputs t0 R R)).1
            { now := t0 + (R : ℚ) / (R : ℚ), keyEvents := [] }).1,
           (loopIter (runLoop (initLoopState app t0)
            (fixedRateInputs t0 R R)).1
            { now := t0 + (R : ℚ) / (R : ℚ), keyEvents := [] }).2) := by
      simp [runLoop]
    rw [hsplit, runLoop_append, hone]
    refine ⟨?_, ?_, ?_, ?_, ?_⟩
    · rw [hit.1, h1]
      simp only
      rw [hnow, div_one]
    · rw [hit.2.1]
      simp only
      rw [hnow, mul_one, h1]
    · rw [hit.2.2.1]
    · rw [hit.2.2.2.1, h1, h2]
      exact Nat.zero_add R
    · rw [hit.2.2.2.2]
      simp only
      rw [div_self hRne]

/-- Witness for C5: the refresh formulas at a concrete loop state two
seconds past the baseline with four frames counted, and the fixed-rate
scenario at R = 2. -/
theorem c5_witness :
    (1 : ℚ) ≤ demoLoop.app.timeCur - demoLoop.last_time
      ∧ (updateStats demoLoop).1.app.avg_fps
          = (demoLoop.frame : ℚ)
              / (demoLoop.app.timeCur - demoLoop.last_time)
      ∧ (updateStats demoLoop).1.frame = 0
      ∧ (1 : Nat) ≤ 2
      ∧ (runLoop (initLoopState demoApp 0)
          (fixedRateInputs 0 2 3)).1.app.avg_fps = (2 : ℚ) := by
  have hyp : (1 : ℚ) ≤ demoLoop.app.timeCur - demoLoop.last_time := by
    show (1 : ℚ) ≤ 2 - 0
    norm_num
  have ha := c5_rolling_average.1 demoLoop hyp
  have hb := c5_rolling_average.2 demoApp 0 2 (by norm_num)
  exact ⟨hyp, ha.2.1, ha.2.2.1, by norm_num, by exact_mod_cast hb.1⟩

/-- C6: every frame multiplies the cube's model transform on the right
by a rotation about the fixed axis (0.8, 0.6, 0.1) whose angle is
(pi/2) * timeDelta (angles are stored as coefficients of pi/2), and over
any run of the loop the accumulated rotation angle grows by exactly the
elapsed time between the first and last time sample — it depends on
total elapsed time, not on the number of frames. -/
theorem c6_rotation_frame_rate_independent :
    (∀ app : BaseApplication,
        (displayFunc app).1.cube.model
          = GlmMat.rotate app.cube.model app.timeDelta (4/5) (3/5) (1/10))
      ∧ (∀ (s : LoopState) (inputs : List FrameInput),
          accumRot (runLoop s inputs).1.app.cube.model
            = accumRot s.app.cube.model
                + ((runLoop s inputs).1.app.timeCur - s.app.timeCur)) :=
  ⟨fun _ => rfl, runLoop_accum⟩

/-- C7: on exit, mainLoop reports a total frame count equal to the
number of loop iterations, which equals the number of draw invocations
in the run's event trace and equals the sum of all completed statistics
windows plus the final partial window, and an overall average FPS equal
to that total divided by the duration of the whole run. -/
theorem c7_exit_report (app : BaseApplication) (t0 : ℚ)
    (inputs : List FrameInput) :
    (mainLoop app t0 inputs).totalFrames = inputs.length
      ∧ countDraws (mainLoop app t0 inputs).events
          = (mainLoop app t0 inputs).totalFrames
      ∧ (mainLoop app t0 inputs).totalFrames
          = (mainLoop app t0 inputs).finalState.frames_total
              + (mainLoop app t0 inputs).finalState.frame
      ∧ (mainLoop app t0 inputs).overallFPS
          = ((mainLoop app t0 inputs).totalFrames : ℚ)
              / ((mainLoop app t0 inputs).finalState.app.timeCur - t0) := by
  have hf := runLoop_frames (initLoopState app t0) inputs
  have hz1 : (initLoopState app t0).frames_total = 0 := rfl
  have hz2 : (initLoopState app t0).frame = 0 := rfl
  have h1 : (mainLoop app t0 inputs).totalFrames = inputs.length := by
    show (runLoop (initLoopState app t0) inputs).1.frames_total
        + (runLoop (initLoopState app t0) inputs).1.frame = inputs.length
    omega
  refine ⟨h1, ?_, rfl, rfl⟩
  show countDraws (runLoop (initLoopState app t0) inputs).2
      = (mainLoop app t0 inputs).totalFrames
  rw [countDraws_runLoop, h1]

theorem initShaders_comm_releasedKeys (app : BaseApplication)
    (rk : Nat → Bool) (b : ShaderBuild) :
    initShaders { app with releasedKeys := rk } b
      = ({ (initShaders app b).1 with releasedKeys := rk },
          (initShaders app b).2.1, (initShaders app b).2.2) := by
  simp only [initShaders, destroyShaders]
  by_cases hp : app.program ≠ 0 <;> by_cases hb : b.program = 0 <;>
    simp [hp, hb]

theorem destroy_releasedKeys (app : BaseApplication) :
    (app.destroy).1.releasedKeys = app.releasedKeys := by
  simp only [BaseApplication.destroy, destroyShaders]
  split_ifs <;> rfl

theorem initBaseApp_releasedKeys (app : BaseApplication) (w h : Int)
    (env : InitEnv) :
    (initBaseApp app w h env).1.releasedKeys = fun _ => false := by
  simp only [initBaseApp]
  split_ifs <;> rfl

/-- C10: initialization sets the releasedKeys array to all-false and no
operation ever writes it again, so in every reachable state every entry
of releasedKeys is false; moreover the keyboard callback is completely
insensitive to the contents of releasedKeys (press-edge detection reads
only pressedKeys): overwriting releasedKeys commutes with the callback
and changes neither its events nor its dispatched action. -/
theorem c10_releasedKeys_always_false :
    (∀ app : BaseApplication, Reachable app →
        ∀ k, app.releasedKeys k = false)
      ∧ (∀ (app : BaseApplication) (rk : Nat → Bool) (k : Int) (a : Nat)
            (b : ShaderBuild),
          callback_Keyboard { app with releasedKeys := rk } k a b
            = ({ (callback_Keyboard app k a b).1 with releasedKeys := rk },
                (callback_Keyboard app k a b).2.1,
                (callback_Keyboard app k a b).2.2)) := by
  constructor
  · intro app h
    induction h with
    | init app w hh env =>
      intro k
      rw [initBaseApp_releasedKeys]
    | key app k' a b _ ih =>
      intro k
      rw [(callback_preserves app k' a b).2.2.2.2]
      exact ih k
    | resize app w hh _ ih =>
      intro k
      exact ih k
    | frame s fi _ ih =>
      intro k
      rw [(loopIter_app_state s fi).2.2.1]
      exact ih k
    | shaders app b _ ih =>
      intro k
      rw [(initShaders_preserves app b).2.2.2.2]
      exact ih k
    | shutdown app _ ih =>
      intro k
      rw [destroy_releasedKeys app]
      exact ih k
  · intro app rk k a b
    simp only [callback_Keyboard]
    split_ifs <;> first
      | rfl
      | (rw [initShaders_comm_releasedKeys]; try rfl)

/-- Witness for C10: a concrete freshly initialized state is reachable
and its releasedKeys entry 7 is false. -/
theorem c10_witness :
    Reachable (initBaseApp demoApp 800 600
        { glfwInitOk := true, winCreated := true, gladOk := true,
          newVao := 1, newVbo0 := 2, newVbo1 := 3, t0 := 0 }).1
      ∧ (initBaseApp demoApp 800 600
          { glfwInitOk := true, winCreated := true, gladOk := true,
            newVao := 1, newVbo0 := 2, newVbo1 := 3, t0 := 0 }).1.releasedKeys
            7 = false :=
  ⟨Reachable.init demoApp 800 600 _,
    c10_releasedKeys_always_false.1 _ (Reachable.init demoApp 800 600 _) 7⟩

end VSOpenGL
